import Mathlib

/-!
Shallow embedding of the campus-info-system backend (Node.js/Express + SQLite)
into Lean 4, covering the authentication middleware (auth.js), the database
layer (database.js) and the HTTP handlers (server.js) that the verified
claims concern: the booking-request workflow, the schedule read path, the
signup/seeding of users, and the bearer-token gate.

Conventions of the embedding:
* SQLite tables are Lean lists of records; `AUTOINCREMENT` ids are explicit
  `next`-id counters threaded through the state.
* `CURRENT_TIMESTAMP` is an abstract clock value `now : Nat` passed to every
  state-changing operation.
* JavaScript truthiness tests (`if (x)`) on strings and numbers are modelled
  by `truthyStr` / `truthyNat` (absent, `""` and `0` are falsy).
* SQL `TEXT` ordering (memcmp on UTF-8, which agrees with code-point
  lexicographic order) is modelled as the lexicographic order on `String.data`
  (`List Char`); SQL `ORDER BY` is `List.insertionSort` with the corresponding
  total preorder (SQL leaves tie order unspecified, so any sort that is a
  sorted permutation is a faithful model).
* bcrypt hashing and the JWT signature check are external libraries, not code
  of this repository; they enter as parameters (`hash : String → String`,
  `verify : String → Option AuthUser`).
-/

namespace CampusInfo

/-- JavaScript truthiness of an optional string: `undefined` and `""` are falsy. -/
def truthyStr : Option String → Bool
  | none => false
  | some s => !(s = "")

/-- JavaScript truthiness of an optional number: `undefined` and `0` are falsy. -/
def truthyNat : Option Nat → Bool
  | none => false
  | some n => !(n = 0)

/-- JS `x || null` on an optional string: a falsy value is stored as NULL. -/
def jsOrNullStr (s : Option String) : Option String :=
  if truthyStr s then s else none

/-- JS `x || null` on an optional number: a falsy value is stored as NULL. -/
def jsOrNullNat (n : Option Nat) : Option Nat :=
  if truthyNat n then n else none

/-- The whitespace characters JS `parseInt` skips before the number
(space, tab, line feed, vertical tab, form feed, carriage return). -/
def isJsSpace (c : Char) : Bool :=
  c = ' ' || c = '\t' || c = '\n' || c = '\x0b' || c = '\x0c' || c = '\r'

/-- Value of a decimal digit, `none` for any other character. -/
def decDigit (c : Char) : Option Nat :=
  if c.isDigit then some (c.toNat - 48) else none

/-- Value of a hexadecimal digit, `none` for any other character. -/
def hexDigit (c : Char) : Option Nat :=
  if c.isDigit then some (c.toNat - 48)
  else if 97 ≤ c.toNat && c.toNat ≤ 102 then some (c.toNat - 87)
  else if 65 ≤ c.toNat && c.toNat ≤ 70 then some (c.toNat - 55)
  else none

/-- Longest prefix of digits of the given radix, `none` (NaN) when there is
no digit at all. -/
def jsParseDigits (radix : Nat) (dv : Char → Option Nat) (cs : List Char) :
    Option Nat :=
  let ds := cs.takeWhile (fun c => (dv c).isSome)
  if ds = [] then none
  else some (ds.foldl (fun acc c => acc * radix + (dv c).getD 0) 0)

/-- Magnitude part of `parseInt` with no radix argument: a `0x`/`0X` prefix
selects hexadecimal, anything else is parsed as decimal. -/
def jsParseNat : List Char → Option Nat
  | '0' :: 'x' :: rest => jsParseDigits 16 hexDigit rest
  | '0' :: 'X' :: rest => jsParseDigits 16 hexDigit rest
  | cs => jsParseDigits 10 decDigit cs

/-- JS `parseInt(s)` with no radix argument (its only use in the server,
`parseInt(resource_id)` on a query-string value): skip leading whitespace,
take an optional single sign, honour a `0x`/`0X` hexadecimal prefix, parse
the longest valid digit prefix, and yield `NaN` (`none`) when no digit
follows. -/
def jsParseInt (s : String) : Option Int :=
  match s.data.dropWhile isJsSpace with
  | '-' :: rest => (jsParseNat rest).map (fun n => -(n : Int))
  | '+' :: rest => (jsParseNat rest).map (fun n => (n : Int))
  | cs => (jsParseNat cs).map (fun n => (n : Int))

/-! ## Data model (database.js `createTables`) -/

/-- Row of the `users` table. The `password` column stores the bcrypt hash. -/
structure User where
  id : Nat
  student_id : String
  name : String
  password : String
  role : String
  created_at : Nat
  updated_at : Nat
deriving Repr, DecidableEq

/-- Row of the `classrooms` table. -/
structure Classroom where
  id : Nat
  room : String
  dept : String
  floor : String
  capacity : Nat
  created_at : Nat
  updated_at : Nat
deriving Repr, DecidableEq

/-- Row of the `labs` table. -/
structure Lab where
  id : Nat
  name : String
  dept : String
  location : String
  computers : Nat
  projector : String
  instruments : String
  status : String
  hours : String
  created_at : Nat
  updated_at : Nat
deriving Repr, DecidableEq

/-- Row of the `buses` table, with its `bus_stops` child rows inlined in
`stop_order` (the only way the server ever reads or writes them). -/
structure Bus where
  id : Nat
  number : String
  time : String
  route : String
  stops : List String
  created_at : Nat
  updated_at : Nat
deriving Repr, DecidableEq

/-- Row of the `cafeteria_menu` table (`price` kept abstract as a Nat of cents). -/
structure MenuItem where
  id : Nat
  name : String
  description : String
  price : Nat
  category : String
  availability : String
  created_at : Nat
  updated_at : Nat
deriving Repr, DecidableEq

/-- Row of the `cafeteria_info` table. -/
structure CafeteriaInfo where
  id : Nat
  location : String
  contact : String
  hours : String
  created_at : Nat
  updated_at : Nat
deriving Repr, DecidableEq

/-- Row of the `schedules` table. -/
structure ScheduleEntry where
  id : Nat
  resource_type : String
  resource_id : Nat
  day_of_week : String
  start_time : String
  end_time : String
  subject : String
  instructor : Option String
  course_code : Option String
  created_at : Nat
  updated_at : Nat
deriving Repr, DecidableEq

/-- Row of the `booking_requests` table. `status` has SQL default `pending`;
`admin_notes`, `reviewed_by`, `reviewed_at` start as NULL. -/
structure BookingRequest where
  id : Nat
  user_id : Nat
  resource_type : String
  resource_id : Nat
  date : String
  start_time : String
  end_time : String
  program_name : String
  description : Option String
  participant_count : Option Nat
  status : String
  admin_notes : Option String
  reviewed_by : Option Nat
  reviewed_at : Option Nat
  created_at : Nat
  updated_at : Nat
deriving Repr, DecidableEq

/-- The whole SQLite database plus the per-table `AUTOINCREMENT` counters. -/
structure AppState where
  users : List User
  classrooms : List Classroom
  labs : List Lab
  buses : List Bus
  cafeteria_menu : List MenuItem
  cafeteria_info : List CafeteriaInfo
  schedules : List ScheduleEntry
  booking_requests : List BookingRequest
  usersNext : Nat
  classroomsNext : Nat
  labsNext : Nat
  busesNext : Nat
  menuNext : Nat
  infoNext : Nat
  schedulesNext : Nat
  bookingsNext : Nat
deriving Repr, DecidableEq

/-! ## Access gate (auth.js) -/

/-- The JWT payload signed by `generateToken`: `{ id, student_id, role, name }`. -/
structure AuthUser where
  id : Nat
  student_id : String
  role : String
  name : String
deriving Repr, DecidableEq

/-- Payload placed in the token by `generateToken(user)` (auth.js). -/
def generateTokenPayload (u : User) : AuthUser :=
  { id := u.id, student_id := u.student_id, role := u.role, name := u.name }

/-- JS `header.split(' ')` on the character list of the header. -/
def splitOnSpace : List Char → List (List Char)
  | [] => [[]]
  | c :: rest =>
    let r := splitOnSpace rest
    if c = ' ' then [] :: r
    else
      match r with
      | [] => [[c]]
      | h :: t => (c :: h) :: t

/-- The token extracted by `authenticateToken`:
`const token = authHeader && authHeader.split(' ')[1]`, with the subsequent
`if (!token)` treating an absent or empty piece as missing. -/
def extractToken (authHeader : Option String) : Option String :=
  match authHeader with
  | none => none
  | some h =>
    if h = "" then none
    else
      match (splitOnSpace h.data).get? 1 with
      | none => none
      | some cs => if cs = [] then none else some (String.mk cs)

/-- Outcome of running the `authenticateToken` middleware in front of a handler:
either one of its two error responses, or the wrapped handler's response. -/
inductive AuthOutcome (ρ : Type) where
  | unauthenticated (code : Nat) (msg : String)
  | invalidToken (code : Nat) (msg : String)
  | proceed (r : ρ)
deriving Repr, DecidableEq

/-- `authenticateToken` middleware (auth.js lines 109-124): missing token →
401, failed `jwt.verify` (invalid or expired signature, abstracted as the
parameter `verify`) → 403, otherwise the handler runs with `req.user` set to
the decoded payload. -/
def authenticateToken {ρ σ : Type} (verify : String → Option AuthUser)
    (authHeader : Option String) (handler : AuthUser → σ → ρ × σ) (st : σ) :
    AuthOutcome ρ × σ :=
  match extractToken authHeader with
  | none => (.unauthenticated 401 "Access token required", st)
  | some t =>
    match verify t with
    | none => (.invalidToken 403 "Invalid or expired token", st)
    | some u =>
      let (r, st2) := handler u st
      (.proceed r, st2)

/-! ## Database layer (database.js) -/

/-- `findUserByStudentId`: `SELECT * FROM users WHERE student_id = ?` (first row). -/
def findUserByStudentId (users : List User) (student_id : String) : Option User :=
  users.find? (fun u => u.student_id = student_id)

/-- Input record of `createUser`. -/
structure NewUser where
  student_id : String
  name : String
  password : String
  role : String
deriving Repr, DecidableEq

/-- `createUser`: bcrypt-hashes the password and inserts the row, returning the
created user. The hash function is the external bcrypt library, passed in. -/
def createUser (hash : String → String) (users : List User) (nextId now : Nat)
    (userData : NewUser) : User × List User :=
  let u : User :=
    { id := nextId, student_id := userData.student_id, name := userData.name,
      password := hash userData.password, role := userData.role,
      created_at := now, updated_at := now }
  (u, users ++ [u])

/-- `createBookingRequest` input (the object built by the POST handler). -/
structure NewBookingData where
  user_id : Nat
  resource_type : String
  resource_id : Nat
  date : String
  start_time : String
  end_time : String
  program_name : String
  description : Option String
  participant_count : Option Nat
deriving Repr, DecidableEq

/-- `createBookingRequest` (database.js lines 866-886): INSERT with
`description || null` and `participant_count || null`; `status` takes the SQL
default `pending`, review columns start NULL. -/
def createBookingRequest (brs : List BookingRequest) (nextId now : Nat)
    (d : NewBookingData) : BookingRequest × List BookingRequest :=
  let br : BookingRequest :=
    { id := nextId, user_id := d.user_id, resource_type := d.resource_type,
      resource_id := d.resource_id, date := d.date, start_time := d.start_time,
      end_time := d.end_time, program_name := d.program_name,
      description := jsOrNullStr d.description,
      participant_count := jsOrNullNat d.participant_count,
      status := "pending", admin_notes := none, reviewed_by := none,
      reviewed_at := none, created_at := now, updated_at := now }
  (br, brs ++ [br])

/-- A row of the booking-request SELECT: `br.*` plus the joined requester
columns and the CASE resource name. -/
structure BookingRequestRow where
  br : BookingRequest
  requester_name : String
  requester_student_id : String
  resource_name : Option String
deriving Repr, DecidableEq

/-- The CASE expression naming the booked resource via the two LEFT JOINs. -/
def resourceName (classrooms : List Classroom) (labs : List Lab)
    (br : BookingRequest) : Option String :=
  if br.resource_type = "classroom" then
    (classrooms.find? (fun c => c.id = br.resource_id)).map (fun c => c.room)
  else if br.resource_type = "lab" then
    (labs.find? (fun l => l.id = br.resource_id)).map (fun l => l.name)
  else none

/-- The inner `JOIN users u ON br.user_id = u.id`: a booking row appears in the
SELECT result only if its user exists (`id` is the primary key, so at most one
match). -/
def joinBooking (users : List User) (classrooms : List Classroom)
    (labs : List Lab) (br : BookingRequest) : Option BookingRequestRow :=
  (users.find? (fun u => u.id = br.user_id)).map fun u =>
    { br := br, requester_name := u.name, requester_student_id := u.student_id,
      resource_name := resourceName classrooms labs br }

/-- The filters object handed to `getAllBookingRequests`. `resource_id` comes
from `parseInt` and can be any integer (NaN is `none`). -/
structure BookingFilters where
  status : Option String := none
  user_id : Option Nat := none
  resource_type : Option String := none
  resource_id : Option Int := none
deriving Repr, DecidableEq

/-- `if (filters.status && filters.status !== 'all') conditions.push('br.status = ?')`:
a falsy (`''`) or `'all'` status filter adds no condition. -/
def statusFilterCond (f : Option String) (br : BookingRequest) : Bool :=
  match f with
  | none => true
  | some s => if s = "" || s = "all" then true else br.status = s

/-- `if (filters.user_id) conditions.push('br.user_id = ?')` (0 is falsy). -/
def userFilterCond (f : Option Nat) (br : BookingRequest) : Bool :=
  match f with
  | none => true
  | some uid => if uid = 0 then true else br.user_id = uid

/-- `if (filters.resource_type) conditions.push('br.resource_type = ?')`. -/
def typeFilterCond (f : Option String) (br : BookingRequest) : Bool :=
  match f with
  | none => true
  | some t => if t = "" then true else br.resource_type = t

/-- `if (filters.resource_id) conditions.push('br.resource_id = ?')` (0 and
NaN are falsy; any other integer, negative included, adds the SQL equality
condition against the INTEGER column). -/
def ridFilterCond (f : Option Int) (br : BookingRequest) : Bool :=
  match f with
  | none => true
  | some rid => if rid = 0 then true else (br.resource_id : Int) = rid

/-- WHERE clause of `getAllBookingRequests` (database.js lines 906-924): the
conjunction of the four truthiness-guarded conditions. -/
def bookingFilterMatch (f : BookingFilters) (br : BookingRequest) : Bool :=
  statusFilterCond f.status br && userFilterCond f.user_id br &&
  typeFilterCond f.resource_type br && ridFilterCond f.resource_id br

/-- `ORDER BY br.created_at DESC` as a total preorder on result rows. -/
def createdDescRel (a b : BookingRequestRow) : Prop :=
  b.br.created_at ≤ a.br.created_at

instance : DecidableRel createdDescRel := fun a b =>
  inferInstanceAs (Decidable (b.br.created_at ≤ a.br.created_at))

instance : IsTotal BookingRequestRow createdDescRel :=
  ⟨fun a b => Nat.le_total b.br.created_at a.br.created_at⟩

instance : IsTrans BookingRequestRow createdDescRel :=
  ⟨fun _ _ _ hab hbc => Nat.le_trans hbc hab⟩

/-- `getAllBookingRequests` (database.js lines 888-937): join, WHERE filters,
`ORDER BY br.created_at DESC`. -/
def getAllBookingRequests (users : List User) (classrooms : List Classroom)
    (labs : List Lab) (brs : List BookingRequest) (f : BookingFilters) :
    List BookingRequestRow :=
  List.insertionSort createdDescRel
    ((brs.filter (bookingFilterMatch f)).filterMap (joinBooking users classrooms labs))

/-- `getBookingRequestById` (database.js lines 939-960): same SELECT with
`WHERE br.id = ?`, returning the first row if any. -/
def getBookingRequestById (users : List User) (classrooms : List Classroom)
    (labs : List Lab) (brs : List BookingRequest) (id : Nat) :
    Option BookingRequestRow :=
  (brs.find? (fun br => br.id = id)).bind (joinBooking users classrooms labs)

/-- The object resolved by `updateBookingRequestStatus`. -/
structure StatusUpdateResult where
  id : Nat
  status : String
  changes : Nat
deriving Repr, DecidableEq

/-- `updateBookingRequestStatus` (database.js lines 962-973): one UPDATE that
unconditionally sets `status`, `reviewed_by`, `reviewed_at`, `admin_notes` and
`updated_at` on every row with the given id, reporting `this.changes`. -/
def updateBookingRequestStatus (brs : List BookingRequest) (id : Nat)
    (status : String) (adminId : Nat) (adminNotes : Option String) (now : Nat) :
    StatusUpdateResult × List BookingRequest :=
  let brs2 := brs.map fun br =>
    if br.id = id then
      { br with status := status, reviewed_by := some adminId,
                reviewed_at := some now, admin_notes := adminNotes,
                updated_at := now }
    else br
  ({ id := id, status := status, changes := (brs.filter (fun br => br.id = id)).length }, brs2)

/-- `deleteBookingRequest` (database.js lines 975-983): `DELETE ... WHERE id = ?`,
reporting the number of deleted rows. -/
def deleteBookingRequest (brs : List BookingRequest) (id : Nat) :
    Nat × List BookingRequest :=
  ((brs.filter (fun br => br.id = id)).length, brs.filter (fun br => !(br.id = id)))

/-! ### Schedules (database.js lines 770-863) -/

/-- Input record of `createSchedule`. -/
structure NewSchedule where
  resource_type : String
  resource_id : Nat
  day_of_week : String
  start_time : String
  end_time : String
  subject : String
  instructor : Option String
  course_code : Option String
deriving Repr, DecidableEq

/-- `createSchedule`: INSERT with `instructor || null` and `course_code || null`. -/
def createSchedule (schedules : List ScheduleEntry) (nextId now : Nat)
    (s : NewSchedule) : ScheduleEntry × List ScheduleEntry :=
  let e : ScheduleEntry :=
    { id := nextId, resource_type := s.resource_type, resource_id := s.resource_id,
      day_of_week := s.day_of_week, start_time := s.start_time,
      end_time := s.end_time, subject := s.subject,
      instructor := jsOrNullStr s.instructor,
      course_code := jsOrNullStr s.course_code,
      created_at := now, updated_at := now }
  (e, schedules ++ [e])

/-- WHERE clause of `getSchedulesByResource`: resource pair always, day only
when the `dayOfWeek` argument is truthy. -/
def scheduleMatch (resourceType : String) (resourceId : Nat)
    (dayOfWeek : Option String) (s : ScheduleEntry) : Bool :=
  s.resource_type = resourceType && s.resource_id = resourceId &&
  (match dayOfWeek with
   | none => true
   | some d => if d = "" then true else s.day_of_week = d)

/-- `ORDER BY day_of_week, start_time` on TEXT columns: lexicographic
code-point order on `day_of_week`, ties broken by `start_time`. -/
def scheduleRel (a b : ScheduleEntry) : Prop :=
  a.day_of_week.data < b.day_of_week.data ∨
    (a.day_of_week.data = b.day_of_week.data ∧ a.start_time.data ≤ b.start_time.data)

instance : DecidableRel scheduleRel := fun x y =>
  inferInstanceAs (Decidable (x.day_of_week.data < y.day_of_week.data ∨
    (x.day_of_week.data = y.day_of_week.data ∧ x.start_time.data ≤ y.start_time.data)))

instance : IsTotal ScheduleEntry scheduleRel := by
  constructor
  intro a b
  rcases lt_trichotomy a.day_of_week.data b.day_of_week.data with h | h | h
  · exact Or.inl (Or.inl h)
  · rcases le_total a.start_time.data b.start_time.data with h2 | h2
    · exact Or.inl (Or.inr ⟨h, h2⟩)
    · exact Or.inr (Or.inr ⟨h.symm, h2⟩)
  · exact Or.inr (Or.inl h)

instance : IsTrans ScheduleEntry scheduleRel := by
  constructor
  intro a b c hab hbc
  rcases hab with hab | ⟨hab, hab2⟩
  · rcases hbc with hbc | ⟨hbc, _⟩
    · exact Or.inl (lt_trans hab hbc)
    · exact Or.inl (hbc ▸ hab)
  · rcases hbc with hbc | ⟨hbc, hbc2⟩
    · exact Or.inl (hab ▸ hbc)
    · exact Or.inr ⟨hab.trans hbc, le_trans hab2 hbc2⟩

/-- `getSchedulesByResource` (database.js lines 790-807): filter by resource
(and optionally day), then `ORDER BY day_of_week, start_time`. -/
def getSchedulesByResource (schedules : List ScheduleEntry)
    (resourceType : String) (resourceId : Nat) (dayOfWeek : Option String) :
    List ScheduleEntry :=
  List.insertionSort scheduleRel
    (schedules.filter (scheduleMatch resourceType resourceId dayOfWeek))

/-- `updateSchedule` input: truthiness-guarded fields plus the two
`!== undefined`-guarded fields (outer `none` = key absent from the body,
`some none` = explicit JSON null). -/
structure ScheduleUpdates where
  day_of_week : Option String := none
  start_time : Option String := none
  end_time : Option String := none
  subject : Option String := none
  instructor : Option (Option String) := none
  course_code : Option (Option String) := none
deriving Repr, DecidableEq

/-- `updateSchedule` (database.js lines 809-853): builds the SET list from the
truthy / defined fields; with an empty list it rejects and changes nothing. -/
def updateSchedule (schedules : List ScheduleEntry) (scheduleId now : Nat)
    (u : ScheduleUpdates) : List ScheduleEntry :=
  let anyField :=
    truthyStr u.day_of_week || truthyStr u.start_time || truthyStr u.end_time ||
    truthyStr u.subject || u.instructor.isSome || u.course_code.isSome
  if anyField then
    schedules.map fun s =>
      if s.id = scheduleId then
        { s with
          day_of_week := if truthyStr u.day_of_week then u.day_of_week.getD s.day_of_week else s.day_of_week,
          start_time := if truthyStr u.start_time then u.start_time.getD s.start_time else s.start_time,
          end_time := if truthyStr u.end_time then u.end_time.getD s.end_time else s.end_time,
          subject := if truthyStr u.subject then u.subject.getD s.subject else s.subject,
          instructor := u.instructor.getD s.instructor,
          course_code := u.course_code.getD s.course_code,
          updated_at := now }
      else s
  else schedules

/-- `deleteSchedule` (database.js lines 855-863). -/
def deleteSchedule (schedules : List ScheduleEntry) (scheduleId : Nat) :
    Nat × List ScheduleEntry :=
  ((schedules.filter (fun s => s.id = scheduleId)).length,
   schedules.filter (fun s => !(s.id = scheduleId)))

/-! ### Routine catalog CRUD (database.js; no operation below touches `users`) -/

/-- Input record for `createClassroom` / `updateClassroom`. -/
structure ClassroomBody where
  room : String
  dept : String
  floor : String
  capacity : Nat
deriving Repr, DecidableEq

/-- `createClassroom`: plain INSERT. -/
def createClassroom (classrooms : List Classroom) (nextId now : Nat)
    (c : ClassroomBody) : Classroom × List Classroom :=
  let row : Classroom :=
    { id := nextId, room := c.room, dept := c.dept, floor := c.floor,
      capacity := c.capacity, created_at := now, updated_at := now }
  (row, classrooms ++ [row])

/-- `updateClassroom`: unconditional UPDATE of the four columns by id. -/
def updateClassroom (classrooms : List Classroom) (id now : Nat)
    (c : ClassroomBody) : List Classroom :=
  classrooms.map fun row =>
    if row.id = id then
      { row with room := c.room, dept := c.dept, floor := c.floor,
                 capacity := c.capacity, updated_at := now }
    else row

/-- `deleteClassroom`: DELETE by id. -/
def deleteClassroom (classrooms : List Classroom) (id : Nat) : List Classroom :=
  classrooms.filter (fun row => !(row.id = id))

/-- `updateLabStatus` (database.js lines 541-557): only when the lab exists. -/
def updateLabStatus (labs : List Lab) (id : Nat) (status : String) (now : Nat) :
    List Lab :=
  match labs.find? (fun l => l.id = id) with
  | none => labs
  | some _ => labs.map fun l =>
      if l.id = id then { l with status := status, updated_at := now } else l

/-- Input record for `createBus` / `updateBus` (stops inlined). -/
structure BusBody where
  number : String
  time : String
  route : String
  stops : List String
deriving Repr, DecidableEq

/-- `createBus`: insert the bus, then its stops in order. -/
def createBus (buses : List Bus) (nextId now : Nat) (b : BusBody) :
    Bus × List Bus :=
  let row : Bus :=
    { id := nextId, number := b.number, time := b.time, route := b.route,
      stops := b.stops, created_at := now, updated_at := now }
  (row, buses ++ [row])

/-- `updateBus`: UPDATE the bus columns, delete its stops, insert new stops. -/
def updateBus (buses : List Bus) (id now : Nat) (b : BusBody) : List Bus :=
  buses.map fun row =>
    if row.id = id then
      { row with number := b.number, time := b.time, route := b.route,
                 stops := b.stops, updated_at := now }
    else row

/-- `deleteBus`: DELETE by id (stops cascade). -/
def deleteBus (buses : List Bus) (id : Nat) : List Bus :=
  buses.filter (fun row => !(row.id = id))

/-- Input record for `createMenuItem` / `updateMenuItem`. -/
structure MenuItemBody where
  name : String
  description : String
  price : Nat
  category : String
  availability : String
deriving Repr, DecidableEq

/-- `createMenuItem`: plain INSERT. -/
def createMenuItem (menu : List MenuItem) (nextId now : Nat) (m : MenuItemBody) :
    MenuItem × List MenuItem :=
  let row : MenuItem :=
    { id := nextId, name := m.name, description := m.description,
      price := m.price, category := m.category, availability := m.availability,
      created_at := now, updated_at := now }
  (row, menu ++ [row])

/-- `updateMenuItem`: unconditional UPDATE of the five columns by id. -/
def updateMenuItem (menu : List MenuItem) (id now : Nat) (m : MenuItemBody) :
    List MenuItem :=
  menu.map fun row =>
    if row.id = id then
      { row with name := m.name, description := m.description, price := m.price,
                 category := m.category, availability := m.availability,
                 updated_at := now }
    else row

/-- `deleteMenuItem`: DELETE by id. -/
def deleteMenuItem (menu : List MenuItem) (id : Nat) : List MenuItem :=
  menu.filter (fun row => !(row.id = id))

/-- Input record for `updateCafeteriaInfo`. -/
structure CafeteriaInfoBody where
  location : String
  contact : String
  hours : String
deriving Repr, DecidableEq

/-- `updateCafeteriaInfo` (database.js lines 744-767): update the first
existing row, or insert one. -/
def updateCafeteriaInfo (info : List CafeteriaInfo) (nextId now : Nat)
    (i : CafeteriaInfoBody) : List CafeteriaInfo × Nat :=
  match info.head? with
  | some row0 =>
    (info.map fun row =>
      if row.id = row0.id then
        { row with location := i.location, contact := i.contact,
                   hours := i.hours, updated_at := now }
      else row, nextId)
  | none =>
    (info ++ [{ id := nextId, location := i.location, contact := i.contact,
                hours := i.hours, created_at := now, updated_at := now }],
     nextId + 1)

/-! ## HTTP handlers (server.js) -/

/-- Body of `POST /api/auth/signup`. The handler destructures only
`student_id`, `name` and `password`; a `role` supplied by the client is
carried here to show it is ignored. -/
structure SignupBody where
  student_id : Option String := none
  name : Option String := none
  password : Option String := none
  role : Option String := none
deriving Repr, DecidableEq

/-- Response of the signup handler. -/
inductive SignupResult where
  | validationError (code : Nat) (msg : String)
  | created (code : Nat) (user : User) (tokenPayload : AuthUser)
deriving Repr, DecidableEq

/-- `POST /api/auth/signup` (server.js lines 40-89): validates the three
mandatory fields and the password length, rejects an existing student_id, then
creates the user with `role: 'student'` hard-coded and issues a token. -/
def postAuthSignup (hash : String → String) (body : SignupBody) (now : Nat)
    (st : AppState) : SignupResult × AppState :=
  if !(truthyStr body.student_id && truthyStr body.name && truthyStr body.password) then
    (.validationError 400 "Student ID, name, and password are required", st)
  else if (body.password.getD "").length < 6 then
    (.validationError 400 "Password must be at least 6 characters long", st)
  else
    match findUserByStudentId st.users (body.student_id.getD "") with
    | some _ => (.validationError 400 "Student ID already exists", st)
    | none =>
      let (newUser, users2) := createUser hash st.users st.usersNext now
        { student_id := body.student_id.getD "", name := body.name.getD "",
          password := body.password.getD "", role := "student" }
      (.created 201 newUser (generateTokenPayload newUser),
       { st with users := users2, usersNext := st.usersNext + 1 })

/-- Body of `POST /api/booking-requests`. The handler never reads a
`user_id` from the body; the field is carried here to show it is ignored. -/
structure CreateBookingBody where
  user_id : Option Nat := none
  resource_type : Option String := none
  resource_id : Option Nat := none
  date : Option String := none
  start_time : Option String := none
  end_time : Option String := none
  program_name : Option String := none
  description : Option String := none
  participant_count : Option Nat := none
deriving Repr, DecidableEq

/-- The mandatory-fields check of the create-booking handler
(`if (!resource_type || !resource_id || ...)`). -/
def requiredBookingFields (body : CreateBookingBody) : Bool :=
  truthyStr body.resource_type && truthyNat body.resource_id &&
  truthyStr body.date && truthyStr body.start_time &&
  truthyStr body.end_time && truthyStr body.program_name

/-- Response of the create-booking handler. -/
inductive CreateBookingResult where
  | validationError (code : Nat) (msg : String)
  | created (code : Nat) (br : BookingRequest)
deriving Repr, DecidableEq

/-- `POST /api/booking-requests` (server.js lines 465-490): mandatory-field
check, then `createBookingRequest` with `user_id: req.user.id` taken from the
authenticated caller (the body's `user_id` never flows in). -/
def postBookingRequests (caller : AuthUser) (body : CreateBookingBody)
    (now : Nat) (st : AppState) : CreateBookingResult × AppState :=
  if !(requiredBookingFields body) then
    (.validationError 400
      "Required fields: resource_type, resource_id, date, start_time, end_time, program_name",
     st)
  else
    let (br, brs2) := createBookingRequest st.booking_requests st.bookingsNext now
      { user_id := caller.id,
        resource_type := body.resource_type.getD "",
        resource_id := body.resource_id.getD 0,
        date := body.date.getD "",
        start_time := body.start_time.getD "",
        end_time := body.end_time.getD "",
        program_name := body.program_name.getD "",
        description := body.description,
        participant_count := body.participant_count }
    (.created 201 br,
     { st with booking_requests := brs2, bookingsNext := st.bookingsNext + 1 })

/-- Query string of `GET /api/booking-requests` (raw HTTP query parameters;
`resource_id` arrives as a string and is `parseInt`-ed by the handler). -/
structure ListBookingQuery where
  status : Option String := none
  resource_type : Option String := none
  resource_id : Option String := none
deriving Repr, DecidableEq

/-- The filters object built by the listing handler (server.js lines 495-505):
`resource_id` is parsed when the query string is truthy, and `user_id` is
forced to the caller for a non-admin unless the status filter is exactly
`'approved'`. -/
def listBookingFilters (caller : AuthUser) (q : ListBookingQuery) :
    BookingFilters :=
  { status := q.status,
    resource_type := q.resource_type,
    resource_id :=
      match q.resource_id with
      | none => none
      | some s => if s = "" then none else jsParseInt s,
    user_id :=
      if !(caller.role = "admin") && !(q.status = some "approved") then
        some caller.id
      else none }

/-- `GET /api/booking-requests` (server.js lines 493-513). -/
def getBookingRequestsHandler (caller : AuthUser) (q : ListBookingQuery)
    (st : AppState) : List BookingRequestRow :=
  getAllBookingRequests st.users st.classrooms st.labs st.booking_requests
    (listBookingFilters caller q)

/-- Response of the get-booking-by-id handler. -/
inductive GetBookingResult where
  | notFound (code : Nat) (msg : String)
  | accessDenied (code : Nat) (msg : String)
  | ok (code : Nat) (row : BookingRequestRow)
deriving Repr, DecidableEq

/-- `GET /api/booking-requests/:id` (server.js lines 516-534): 404 when the
row is absent; 403 for a non-admin caller who is not the owner (regardless of
the row's status); otherwise the row. -/
def getBookingRequestByIdHandler (caller : AuthUser) (id : Nat) (st : AppState) :
    GetBookingResult :=
  match getBookingRequestById st.users st.classrooms st.labs st.booking_requests id with
  | none => .notFound 404 "Booking request not found"
  | some row =>
    if !(caller.role = "admin") && !(row.br.user_id = caller.id) then
      .accessDenied 403 "Access denied"
    else .ok 200 row

/-- Body of `PATCH /api/booking-requests/:id/status`. -/
structure StatusUpdateBody where
  status : Option String := none
  admin_notes : Option String := none
deriving Repr, DecidableEq

/-- Response of the status-update handler. -/
inductive StatusUpdateResponse where
  | validationError (code : Nat) (msg : String)
  | ok (code : Nat) (r : StatusUpdateResult)
deriving Repr, DecidableEq

/-- `PATCH /api/booking-requests/:id/status` (server.js lines 537-551):
`if (!status || !['approved', 'rejected'].includes(status))` → 400 and no
store call; otherwise `updateBookingRequestStatus` with the admin's id and the
body's `admin_notes` (NULL when omitted). -/
def patchBookingStatusHandler (caller : AuthUser) (id : Nat)
    (body : StatusUpdateBody) (now : Nat) (st : AppState) :
    StatusUpdateResponse × AppState :=
  if !(body.status = some "approved" || body.status = some "rejected") then
    (.validationError 400 "Status must be either \"approved\" or \"rejected\"", st)
  else
    let (r, brs2) := updateBookingRequestStatus st.booking_requests id
      (body.status.getD "") caller.id body.admin_notes now
    (.ok 200 r, { st with booking_requests := brs2 })

/-- Response of the delete-booking handler. -/
inductive DeleteBookingResult where
  | notFound (code : Nat) (msg : String)
  | accessDenied (code : Nat) (msg : String)
  | invalidState (code : Nat) (msg : String)
  | ok (code : Nat) (msg : String) (deleted : Nat)
deriving Repr, DecidableEq

/-- `DELETE /api/booking-requests/:id` (server.js lines 554-578): 404 when the
row is absent; for a non-admin, 403 unless the caller owns the row, then 400
unless the row is still pending; otherwise `deleteBookingRequest`. -/
def deleteBookingRequestHandler (caller : AuthUser) (id : Nat) (st : AppState) :
    DeleteBookingResult × AppState :=
  match getBookingRequestById st.users st.classrooms st.labs st.booking_requests id with
  | none => (.notFound 404 "Booking request not found", st)
  | some row =>
    if !(caller.role = "admin") && !(row.br.user_id = caller.id) then
      (.accessDenied 403 "Access denied", st)
    else if !(caller.role = "admin") && !(row.br.status = "pending") then
      (.invalidState 400 "Can only delete pending requests", st)
    else
      let (deleted, brs2) := deleteBookingRequest st.booking_requests id
      (.ok 200 "Booking request deleted successfully" deleted,
       { st with booking_requests := brs2 })

/-- Body of `POST /api/schedules` (mandatory fields truthiness-checked by the
handler, optional `instructor` / `course_code`). -/
structure CreateScheduleBody where
  resource_type : Option String := none
  resource_id : Option Nat := none
  day_of_week : Option String := none
  start_time : Option String := none
  end_time : Option String := none
  subject : Option String := none
  instructor : Option String := none
  course_code : Option String := none
deriving Repr, DecidableEq

/-- `POST /api/schedules` (server.js lines 414-438): mandatory-field check,
then `createSchedule`. -/
def postSchedulesHandler (body : CreateScheduleBody) (now : Nat)
    (st : AppState) : AppState :=
  if !(truthyStr body.resource_type && truthyNat body.resource_id &&
       truthyStr body.day_of_week && truthyStr body.start_time &&
       truthyStr body.end_time && truthyStr body.subject) then st
  else
    let (_, schedules2) := createSchedule st.schedules st.schedulesNext now
      { resource_type := body.resource_type.getD "",
        resource_id := body.resource_id.getD 0,
        day_of_week := body.day_of_week.getD "",
        start_time := body.start_time.getD "",
        end_time := body.end_time.getD "",
        subject := body.subject.getD "",
        instructor := body.instructor, course_code := body.course_code }
    { st with schedules := schedules2, schedulesNext := st.schedulesNext + 1 }

/-! ## The exposed API surface as a transition system (server.js routes)

Every route of server.js appears as one `Action`. `step` models the handler
stage of each route; the middleware (`authenticateToken`, `requireAdmin`) can
only stop a handler from running, never change state itself, so running
handlers for arbitrary caller payloads over-approximates the reachable states
of the gated system — any invariant proved over `step` holds for the real
server. GET routes and the auth routes other than signup never write. -/

inductive Action where
  | signup (body : SignupBody)
  | signin (student_id password : Option String)
  | signout (caller : AuthUser)
  | me (caller : AuthUser)
  | getUsers (caller : AuthUser)
  | getClassrooms (dept search : Option String)
  | getClassroomById (id : Nat)
  | postClassroom (c : ClassroomBody)
  | putClassroom (id : Nat) (c : ClassroomBody)
  | deleteClassroom (id : Nat)
  | getLabs (status search : Option String)
  | patchLabStatus (id : Nat) (status : String)
  | getBuses (search : Option String)
  | postBus (b : BusBody)
  | putBus (id : Nat) (b : BusBody)
  | deleteBus (id : Nat)
  | getMenu (category availability search : Option String)
  | getMenuItemById (id : Nat)
  | postMenuItem (m : MenuItemBody)
  | putMenuItem (id : Nat) (m : MenuItemBody)
  | deleteMenuItem (id : Nat)
  | getCafeteriaInfo
  | putCafeteriaInfo (i : CafeteriaInfoBody)
  | getSchedules (ty : String) (id : Nat) (day : Option String)
  | postSchedule (body : CreateScheduleBody)
  | putSchedule (id : Nat) (u : ScheduleUpdates)
  | deleteSchedule (id : Nat)
  | postBooking (caller : AuthUser) (body : CreateBookingBody)
  | getBookings (caller : AuthUser) (q : ListBookingQuery)
  | getBookingById (caller : AuthUser) (id : Nat)
  | patchBookingStatus (caller : AuthUser) (id : Nat) (body : StatusUpdateBody)
  | deleteBooking (caller : AuthUser) (id : Nat)
  | health

/-- One request against the API: the state after the route's handler ran at
time `now`. -/
def step (hash : String → String) (a : Action) (now : Nat) (st : AppState) :
    AppState :=
  match a with
  | .signup body => (postAuthSignup hash body now st).2
  | .signin _ _ => st
  | .signout _ => st
  | .me _ => st
  | .getUsers _ => st
  | .getClassrooms _ _ => st
  | .getClassroomById _ => st
  | .postClassroom c =>
    let (_, cs2) := createClassroom st.classrooms st.classroomsNext now c
    { st with classrooms := cs2, classroomsNext := st.classroomsNext + 1 }
  | .putClassroom id c => { st with classrooms := updateClassroom st.classrooms id now c }
  | .deleteClassroom id => { st with classrooms := deleteClassroom st.classrooms id }
  | .getLabs _ _ => st
  | .patchLabStatus id status => { st with labs := updateLabStatus st.labs id status now }
  | .getBuses _ => st
  | .postBus b =>
    let (_, bs2) := createBus st.buses st.busesNext now b
    { st with buses := bs2, busesNext := st.busesNext + 1 }
  | .putBus id b => { st with buses := updateBus st.buses id now b }
  | .deleteBus id => { st with buses := deleteBus st.buses id }
  | .getMenu _ _ _ => st
  | .getMenuItemById _ => st
  | .postMenuItem m =>
    let (_, ms2) := createMenuItem st.cafeteria_menu st.menuNext now m
    { st with cafeteria_menu := ms2, menuNext := st.menuNext + 1 }
  | .putMenuItem id m => { st with cafeteria_menu := updateMenuItem st.cafeteria_menu id now m }
  | .deleteMenuItem id => { st with cafeteria_menu := deleteMenuItem st.cafeteria_menu id }
  | .getCafeteriaInfo => st
  | .putCafeteriaInfo i =>
    let (info2, n2) := updateCafeteriaInfo st.cafeteria_info st.infoNext now i
    { st with cafeteria_info := info2, infoNext := n2 }
  | .getSchedules _ _ _ => st
  | .postSchedule body => postSchedulesHandler body now st
  | .putSchedule id u => { st with schedules := updateSchedule st.schedules id now u }
  | .deleteSchedule id =>
    let (_, s2) := deleteSchedule st.schedules id
    { st with schedules := s2 }
  | .postBooking caller body => (postBookingRequests caller body now st).2
  | .getBookings _ _ => st
  | .getBookingById _ _ => st
  | .patchBookingStatus caller id body => (patchBookingStatusHandler caller id body now st).2
  | .deleteBooking caller id => (deleteBookingRequestHandler caller id st).2
  | .health => st

/-- A trace of API requests, each with its arrival time. -/
def runActions (hash : String → String) (acts : List (Action × Nat))
    (st : AppState) : AppState :=
  acts.foldl (fun s p => step hash p.1 p.2 s) st

/-- The user-seeding part of `insertSampleData` (database.js lines 178-194):
create the default admin account when absent. No other part of
`insertSampleData` or of the exposed API inserts a user. -/
def insertSampleDataUsers (hash : String → String) (now : Nat)
    (users : List User) (nextId : Nat) : List User × Nat :=
  match findUserByStudentId users "admin" with
  | some _ => (users, nextId)
  | none =>
    let (_, users2) := createUser hash users nextId now
      { student_id := "admin", name := "System Administrator",
        password := "admin123", role := "admin" }
    (users2, nextId + 1)

/-- Invariant: every user whose role is `admin` is the bootstrap-seeded
`admin` account. -/
def adminOnlySeed (users : List User) : Prop :=
  ∀ u ∈ users, u.role = "admin" → u.student_id = "admin"

/-! ## Concrete fixtures used by witnesses and counterexamples -/

/-- A database with all tables empty and all id counters at 1 (the state of a
fresh SQLite file before `insertSampleData`). -/
def emptyState : AppState :=
  { users := [], classrooms := [], labs := [], buses := [], cafeteria_menu := [],
    cafeteria_info := [], schedules := [], booking_requests := [],
    usersNext := 1, classroomsNext := 1, labsNext := 1, busesNext := 1,
    menuNext := 1, infoNext := 1, schedulesNext := 1, bookingsNext := 1 }

def aliceUser : User :=
  { id := 1, student_id := "S1001", name := "Alice", password := "h1",
    role := "student", created_at := 0, updated_at := 0 }

def bobUser : User :=
  { id := 2, student_id := "S1002", name := "Bob", password := "h2",
    role := "student", created_at := 0, updated_at := 0 }

def adminUser : User :=
  { id := 3, student_id := "admin", name := "System Administrator",
    password := "h3", role := "admin", created_at := 0, updated_at := 0 }

/-- A pending booking request owned by Alice. -/
def pendingBooking : BookingRequest :=
  { id := 1, user_id := 1, resource_type := "classroom", resource_id := 4,
    date := "2025-12-01", start_time := "10:00", end_time := "12:00",
    program_name := "Workshop", description := none, participant_count := none,
    status := "pending", admin_notes := none, reviewed_by := none,
    reviewed_at := none, created_at := 5, updated_at := 5 }

/-- An approved booking request owned by Alice. -/
def approvedBooking : BookingRequest :=
  { pendingBooking with id := 2, status := "approved", reviewed_by := some 3,
                        reviewed_at := some 6, created_at := 4, updated_at := 6 }

/-- Three users and two of Alice's bookings (one pending, one approved). -/
def baseState : AppState :=
  { emptyState with users := [aliceUser, bobUser, adminUser],
                    booking_requests := [pendingBooking, approvedBooking],
                    usersNext := 4, bookingsNext := 3 }

/-- A fully-populated create-booking body carrying a spoofed `user_id`. -/
def spoofedBookingBody : CreateBookingBody :=
  { user_id := some 999, resource_type := some "classroom",
    resource_id := some 4, date := some "2025-12-01",
    start_time := some "10:00", end_time := some "12:00",
    program_name := some "Workshop" }

/-! ## C1: created bookings are pending and owned by the caller -/

/-- C1. For every authenticated caller and every creation whose mandatory
fields are present (truthy), the handler answers 201 with a BookingRequest
whose status is `pending` and whose `user_id` is the caller's id; every row of
the resulting store is either an old row or a pending row owned by the caller;
and the response and state are insensitive to any `user_id` supplied in the
request body. -/
theorem booking_create_pending_owner (caller : AuthUser)
    (body : CreateBookingBody) (now : Nat) (st : AppState)
    (h : requiredBookingFields body = true) :
    (∃ br, (postBookingRequests caller body now st).1 =
        CreateBookingResult.created 201 br ∧
        br.status = "pending" ∧ br.user_id = caller.id) ∧
    (∀ br ∈ (postBookingRequests caller body now st).2.booking_requests,
        br ∈ st.booking_requests ∨ (br.status = "pending" ∧ br.user_id = caller.id)) ∧
    (∀ spoofed, postBookingRequests caller { body with user_id := spoofed } now st =
        postBookingRequests caller body now st) := by
  refine ⟨?_, ?_, fun _ => rfl⟩
  · refine ⟨{ id := st.bookingsNext, user_id := caller.id,
              resource_type := body.resource_type.getD "",
              resource_id := body.resource_id.getD 0, date := body.date.getD "",
              start_time := body.start_time.getD "",
              end_time := body.end_time.getD "",
              program_name := body.program_name.getD "",
              description := jsOrNullStr body.description,
              participant_count := jsOrNullNat body.participant_count,
              status := "pending", admin_notes := none, reviewed_by := none,
              reviewed_at := none, created_at := now, updated_at := now }, ?_, rfl, rfl⟩
    simp [postBookingRequests, h, createBookingRequest]
  · intro br hbr
    simp [postBookingRequests, h, createBookingRequest] at hbr
    rcases hbr with hbr | hbr
    · exact Or.inl hbr
    · subst hbr
      exact Or.inr ⟨rfl, rfl⟩

/-- Witness for C1 at a concrete caller, body (with a spoofed user_id) and
store. -/
theorem booking_create_pending_owner_witness :
    requiredBookingFields spoofedBookingBody = true ∧
    ((∃ br, (postBookingRequests (generateTokenPayload bobUser) spoofedBookingBody 7 baseState).1 =
        CreateBookingResult.created 201 br ∧
        br.status = "pending" ∧ br.user_id = (generateTokenPayload bobUser).id) ∧
     (∀ br ∈ (postBookingRequests (generateTokenPayload bobUser) spoofedBookingBody 7 baseState).2.booking_requests,
        br ∈ baseState.booking_requests ∨
          (br.status = "pending" ∧ br.user_id = (generateTokenPayload bobUser).id)) ∧
     (∀ spoofed, postBookingRequests (generateTokenPayload bobUser)
          { spoofedBookingBody with user_id := spoofed } 7 baseState =
        postBookingRequests (generateTokenPayload bobUser) spoofedBookingBody 7 baseState)) :=
  ⟨by decide, booking_create_pending_owner (generateTokenPayload bobUser)
    spoofedBookingBody 7 baseState (by decide)⟩

/-! ## C2: visibility of the booking-request listing -/

theorem joinBooking_br_eq {users : List User} {classrooms : List Classroom}
    {labs : List Lab} {br : BookingRequest} {row : BookingRequestRow}
    (h : joinBooking users classrooms labs br = some row) : row.br = br := by
  unfold joinBooking at h
  rcases Option.map_eq_some'.mp h with ⟨u, _, hrow⟩
  subst hrow
  rfl

theorem mem_getAllBookingRequests {users : List User}
    {classrooms : List Classroom} {labs : List Lab}
    {brs : List BookingRequest} {f : BookingFilters} {row : BookingRequestRow} :
    row ∈ getAllBookingRequests users classrooms labs brs f ↔
      ∃ br, br ∈ brs ∧ bookingFilterMatch f br = true ∧
        joinBooking users classrooms labs br = some row := by
  unfold getAllBookingRequests
  rw [List.mem_insertionSort, List.mem_filterMap]
  constructor
  · rintro ⟨br, hbr, hj⟩
    exact ⟨br, (List.mem_filter.mp hbr).1, (List.mem_filter.mp hbr).2, hj⟩
  · rintro ⟨br, hbr, hm, hj⟩
    exact ⟨br, List.mem_filter.mpr ⟨hbr, hm⟩, hj⟩

theorem statusFilterCond_iff (f : Option String) (br : BookingRequest) :
    statusFilterCond f br = true ↔
      (∀ s, f = some s → s ≠ "" → s ≠ "all" → br.status = s) := by
  cases f with
  | none => simp [statusFilterCond]
  | some s =>
    by_cases h1 : s = ""
    · simp [statusFilterCond, h1]
    · by_cases h2 : s = "all"
      · simp [statusFilterCond, h1, h2]
      · simp [statusFilterCond, h1, h2]

theorem typeFilterCond_iff (f : Option String) (br : BookingRequest) :
    typeFilterCond f br = true ↔
      (∀ t, f = some t → t ≠ "" → br.resource_type = t) := by
  cases f with
  | none => simp [typeFilterCond]
  | some t =>
    by_cases h1 : t = ""
    · simp [typeFilterCond, h1]
    · simp [typeFilterCond, h1]

theorem listUserFilterCond_iff (caller : AuthUser) (qstatus : Option String)
    (br : BookingRequest) (hcid : caller.id ≠ 0) :
    userFilterCond
      (if !(caller.role = "admin") && !(qstatus = some "approved") then
        some caller.id
      else none) br = true ↔
      (caller.role = "admin" ∨ qstatus = some "approved" ∨ br.user_id = caller.id) := by
  by_cases hadm : caller.role = "admin"
  · simp [userFilterCond, hadm]
  · by_cases happ : qstatus = some "approved"
    · simp [userFilterCond, hadm, happ]
    · simp [userFilterCond, hadm, happ, hcid]

theorem listRidFilterCond_iff (o : Option String) (br : BookingRequest) :
    ridFilterCond
      (match o with
       | none => none
       | some s => if s = "" then none else jsParseInt s) br = true ↔
      (∀ (sr : String) (rid : Int), o = some sr → sr ≠ "" →
        jsParseInt sr = some rid → rid ≠ 0 → (br.resource_id : Int) = rid) := by
  cases o with
  | none => simp [ridFilterCond]
  | some sr =>
    by_cases h1 : sr = ""
    · simp only [ridFilterCond, h1, if_true, eq_self_iff_true, true_iff]
      intro sr2 rid he hne
      injection he with he
      exact absurd he.symm hne
    · cases hp : jsParseInt sr with
      | none =>
        simp only [ridFilterCond, h1, hp, if_false, true_iff]
        intro sr2 rid he _ hp2
        injection he with he
        subst he
        rw [hp] at hp2
        exact absurd hp2 (by simp)
      | some rid =>
        by_cases h2 : rid = 0
        · simp only [ridFilterCond, h1, hp, h2, if_false, if_true, true_iff]
          intro sr2 rid2 he _ hp2 hne
          injection he with he
          subst he
          rw [hp, h2] at hp2
          exact absurd (Option.some_injective _ hp2).symm hne
        · simp only [ridFilterCond, h1, hp, h2, if_false, decide_eq_true_eq]
          constructor
          · intro hb sr2 rid2 he _ hp2 _
            injection he with he
            subst he
            rw [hp] at hp2
            rw [← Option.some_injective _ hp2]
            exact hb
          · intro hall
            exact hall sr rid rfl h1 hp h2

/-- C2 as amended. A row is returned by the listing handler exactly when its
underlying booking is stored, its requester exists (the inner join), the
visibility disjunction (admin ∨ status filter `approved` ∨ owner) holds, and
the row satisfies every supplied filter — where a status filter of `''` or
`'all'` is a sentinel matching every row, and the `resource_id` condition uses
the integer `parseInt` extracts (whitespace/sign/`0x` included), skipped when
the query value is `''` or parses to NaN or `0` (falsy in the truthiness
guard). The hypothesis `caller.id ≠ 0` reflects that SQLite row ids start at 1
(a caller id of 0 would be falsy and disable the ownership condition). -/
theorem booking_listing_visibility (caller : AuthUser) (q : ListBookingQuery)
    (st : AppState) (row : BookingRequestRow) (hcid : caller.id ≠ 0) :
    row ∈ getBookingRequestsHandler caller q st ↔
      (row.br ∈ st.booking_requests ∧
       joinBooking st.users st.classrooms st.labs row.br = some row ∧
       (caller.role = "admin" ∨ q.status = some "approved" ∨
         row.br.user_id = caller.id) ∧
       (∀ s, q.status = some s → s ≠ "" → s ≠ "all" → row.br.status = s) ∧
       (∀ t, q.resource_type = some t → t ≠ "" → row.br.resource_type = t) ∧
       (∀ (sr : String) (rid : Int), q.resource_id = some sr → sr ≠ "" →
         jsParseInt sr = some rid → rid ≠ 0 →
         (row.br.resource_id : Int) = rid)) := by
  unfold getBookingRequestsHandler
  rw [mem_getAllBookingRequests]
  constructor
  · rintro ⟨br, hbr, hm, hj⟩
    have hbe := joinBooking_br_eq hj
    subst hbe
    unfold bookingFilterMatch listBookingFilters at hm
    rw [Bool.and_eq_true, Bool.and_eq_true, Bool.and_eq_true] at hm
    obtain ⟨⟨⟨hs, hu⟩, ht⟩, hr⟩ := hm
    refine ⟨hbr, hj, ?_, ?_, ?_, ?_⟩
    · exact (listUserFilterCond_iff caller q.status row.br hcid).mp hu
    · exact (statusFilterCond_iff q.status row.br).mp hs
    · exact (typeFilterCond_iff q.resource_type row.br).mp ht
    · exact (listRidFilterCond_iff q.resource_id row.br).mp hr
  · rintro ⟨hbr, hj, hvis, hs, ht, hr⟩
    refine ⟨row.br, hbr, ?_, hj⟩
    unfold bookingFilterMatch listBookingFilters
    rw [Bool.and_eq_true, Bool.and_eq_true, Bool.and_eq_true]
    exact ⟨⟨⟨(statusFilterCond_iff q.status row.br).mpr hs,
      (listUserFilterCond_iff caller q.status row.br hcid).mpr hvis⟩,
      (typeFilterCond_iff q.resource_type row.br).mpr ht⟩,
      (listRidFilterCond_iff q.resource_id row.br).mpr hr⟩

/-- The empty query string (no filters supplied). -/
def noFilters : ListBookingQuery := {}

/-- The listing row produced for `pendingBooking` by the join against
`baseState` (no classrooms are loaded, so the resource name is NULL). -/
def pendingBookingRow : BookingRequestRow :=
  { br := pendingBooking, requester_name := "Alice",
    requester_student_id := "S1001", resource_name := none }

/-- Witness for the amended C2: the equivalence instantiated for Bob
(non-admin, id 2) listing with no filters against the concrete store, with the
hypothesis discharged. -/
theorem booking_listing_visibility_witness :
    (generateTokenPayload bobUser).id ≠ 0 ∧
    (pendingBookingRow ∈
        getBookingRequestsHandler (generateTokenPayload bobUser) noFilters baseState ↔
      (pendingBookingRow.br ∈ baseState.booking_requests ∧
       joinBooking baseState.users baseState.classrooms baseState.labs
         pendingBookingRow.br = some pendingBookingRow ∧
       ((generateTokenPayload bobUser).role = "admin" ∨
         noFilters.status = some "approved" ∨
         pendingBookingRow.br.user_id = (generateTokenPayload bobUser).id) ∧
       (∀ s, noFilters.status = some s → s ≠ "" → s ≠ "all" →
         pendingBookingRow.br.status = s) ∧
       (∀ t, noFilters.resource_type = some t → t ≠ "" →
         pendingBookingRow.br.resource_type = t) ∧
       (∀ (sr : String) (rid : Int), noFilters.resource_id = some sr → sr ≠ "" →
         jsParseInt sr = some rid → rid ≠ 0 →
         (pendingBookingRow.br.resource_id : Int) = rid))) :=
  ⟨by decide, booking_listing_visibility (generateTokenPayload bobUser)
    noFilters baseState pendingBookingRow (by decide)⟩

/-- Modelled from the claim wording of C2 (not from the code): a row is in the
listing iff the visibility disjunction holds and the row satisfies every
supplied filter, reading satisfaction of a supplied status filter as equality
with the row's status. -/
def claimC2RowIncluded (caller : AuthUser) (q : ListBookingQuery)
    (row : BookingRequestRow) : Bool :=
  (caller.role = "admin" || q.status = some "approved" ||
    row.br.user_id = caller.id) &&
  (match q.status with
   | none => true
   | some s => row.br.status = s) &&
  (match q.resource_type with
   | none => true
   | some t => row.br.resource_type = t) &&
  (match q.resource_id with
   | none => true
   | some sr =>
     match jsParseInt sr with
     | none => true
     | some rid => (row.br.resource_id : Int) = rid)

/-- Counterexample to C2 as stated: an admin listing with the sentinel status
filter `'all'` receives a row whose status is `pending`, i.e. a row that does
NOT satisfy the supplied status filter by equality — the code treats `'all'`
as "no status condition", which the claim's wording does not allow. -/
theorem booking_listing_claim_counterexample :
    ({ br := pendingBooking, requester_name := "Alice",
       requester_student_id := "S1001", resource_name := none } :
       BookingRequestRow) ∈
      getBookingRequestsHandler (generateTokenPayload adminUser)
        { status := some "all" } baseState ∧
    claimC2RowIncluded (generateTokenPayload adminUser) { status := some "all" }
      { br := pendingBooking, requester_name := "Alice",
        requester_student_id := "S1001", resource_name := none } = false := by
  decide

/-! ## C5: visibility of approved requests -/

/-- The listing row produced for `approvedBooking` by the join against
`baseState`. -/
def approvedBookingRow : BookingRequestRow :=
  { br := approvedBooking, requester_name := "Alice",
    requester_student_id := "S1001", resource_name := none }

/-- Counterexample to C5 as stated: Bob (non-admin, id 2) fetching Alice's
APPROVED request by id receives the access-denied error, not the row — the
by-id handler checks only ownership and role, never the `approved` status. -/
theorem approved_visibility_claim_counterexample :
    approvedBooking ∈ baseState.booking_requests ∧
    approvedBooking.status = "approved" ∧
    (generateTokenPayload bobUser).role ≠ "admin" ∧
    approvedBooking.user_id ≠ (generateTokenPayload bobUser).id ∧
    getBookingRequestByIdHandler (generateTokenPayload bobUser) 2 baseState =
      GetBookingResult.accessDenied 403 "Access denied" := by
  decide

/-- C5 as amended. An approved request is visible to every user only through
the LISTING endpoint with the `status=approved` filter; the by-id endpoint
denies a non-admin caller who is not the owner even when the request is
approved. -/
theorem approved_visibility_listing_only (st : AppState) (caller : AuthUser)
    (row : BookingRequestRow)
    (h1 : row.br ∈ st.booking_requests)
    (h2 : joinBooking st.users st.classrooms st.labs row.br = some row)
    (h3 : row.br.status = "approved") :
    row ∈ getBookingRequestsHandler caller { status := some "approved" } st ∧
    (∀ id, caller.role ≠ "admin" → row.br.user_id ≠ caller.id →
      getBookingRequestById st.users st.classrooms st.labs
        st.booking_requests id = some row →
      getBookingRequestByIdHandler caller id st =
        GetBookingResult.accessDenied 403 "Access denied") := by
  constructor
  · unfold getBookingRequestsHandler
    rw [mem_getAllBookingRequests]
    refine ⟨row.br, h1, ?_, h2⟩
    simp [bookingFilterMatch, listBookingFilters, statusFilterCond,
      userFilterCond, typeFilterCond, ridFilterCond, h3]
  · intro id hrole hown hget
    unfold getBookingRequestByIdHandler
    rw [hget]
    simp [hrole, hown]

/-- Witness for the amended C5 at the concrete store: Bob and Alice's approved
request. -/
theorem approved_visibility_listing_only_witness :
    approvedBookingRow.br ∈ baseState.booking_requests ∧
    joinBooking baseState.users baseState.classrooms baseState.labs
      approvedBookingRow.br = some approvedBookingRow ∧
    approvedBookingRow.br.status = "approved" ∧
    (approvedBookingRow ∈ getBookingRequestsHandler (generateTokenPayload bobUser)
        { status := some "approved" } baseState ∧
     (∀ id, (generateTokenPayload bobUser).role ≠ "admin" →
       approvedBookingRow.br.user_id ≠ (generateTokenPayload bobUser).id →
       getBookingRequestById baseState.users baseState.classrooms baseState.labs
         baseState.booking_requests id = some approvedBookingRow →
       getBookingRequestByIdHandler (generateTokenPayload bobUser) id baseState =
         GetBookingResult.accessDenied 403 "Access denied")) :=
  ⟨by decide, by decide, by decide,
   approved_visibility_listing_only baseState (generateTokenPayload bobUser)
     approvedBookingRow (by decide) (by decide) (by decide)⟩

/-! ## C3: admin status updates -/

/-- C3. An admin status-update whose target status is not `approved` or
`rejected` (including an absent status) is rejected with the 400 validation
error and the state is unchanged; an update to `approved` or `rejected` is
applied to every row with the target id WITHOUT any check of the row's current
status, stamping `reviewed_by` with the admin's id and `reviewed_at` with the
current time. -/
theorem booking_status_update_validation (caller : AuthUser) (id : Nat)
    (body : StatusUpdateBody) (now : Nat) (st : AppState) :
    (¬(body.status = some "approved" ∨ body.status = some "rejected") →
      (patchBookingStatusHandler caller id body now st).1 =
        StatusUpdateResponse.validationError 400
          "Status must be either \"approved\" or \"rejected\"" ∧
      (patchBookingStatusHandler caller id body now st).2 = st) ∧
    (∀ s, body.status = some s → (s = "approved" ∨ s = "rejected") →
      ∀ br ∈ st.booking_requests, br.id = id →
        ({ br with status := s, reviewed_by := some caller.id,
                   reviewed_at := some now, admin_notes := body.admin_notes,
                   updated_at := now } : BookingRequest) ∈
          (patchBookingStatusHandler caller id body now st).2.booking_requests) := by
  constructor
  · intro h
    have h1 : body.status ≠ some "approved" := fun c => h (Or.inl c)
    have h2 : body.status ≠ some "rejected" := fun c => h (Or.inr c)
    constructor
    · simp [patchBookingStatusHandler, h1, h2]
    · simp [patchBookingStatusHandler, h1, h2]
  · intro s hs hvalid br hbr hid
    have hgd : body.status.getD "" = s := by rw [hs]; rfl
    have hcond : (body.status = some "approved" ∨ body.status = some "rejected") := by
      rcases hvalid with h | h
      · exact Or.inl (by rw [hs, h])
      · exact Or.inr (by rw [hs, h])
    have hrw : (patchBookingStatusHandler caller id body now st).2.booking_requests =
        st.booking_requests.map (fun b =>
          if b.id = id then
            { b with status := body.status.getD "", reviewed_by := some caller.id,
                     reviewed_at := some now, admin_notes := body.admin_notes,
                     updated_at := now }
          else b) := by
      rcases hcond with h | h
      · simp [patchBookingStatusHandler, h, updateBookingRequestStatus]
      · simp [patchBookingStatusHandler, h, updateBookingRequestStatus]
    rw [hrw, hgd]
    have heq : ({ br with status := s, reviewed_by := some caller.id,
                          reviewed_at := some now, admin_notes := body.admin_notes,
                          updated_at := now } : BookingRequest) =
        (fun b => if b.id = id then
            ({ b with status := s, reviewed_by := some caller.id,
                      reviewed_at := some now, admin_notes := body.admin_notes,
                      updated_at := now } : BookingRequest)
          else b) br := by
      simp [hid]
    rw [heq]
    exact List.mem_map_of_mem _ hbr

/-- Witness for C3: the admin approves Alice's pending request with a note;
the fully-reviewed row is in the resulting store. -/
theorem booking_status_update_validation_witness :
    ({ pendingBooking with status := "approved",
                           reviewed_by := some (generateTokenPayload adminUser).id,
                           reviewed_at := some 8, admin_notes := some "OK",
                           updated_at := 8 } : BookingRequest) ∈
      (patchBookingStatusHandler (generateTokenPayload adminUser) 1
        { status := some "approved", admin_notes := some "OK" } 8
        baseState).2.booking_requests :=
  (booking_status_update_validation (generateTokenPayload adminUser) 1
      { status := some "approved", admin_notes := some "OK" } 8 baseState).2
    "approved" rfl (Or.inl rfl) pendingBooking (by decide) (by decide)

/-! ## C9: status update of a missing id reports success with zero changes -/

theorem map_if_id {α : Type} (p : α → Prop) [DecidablePred p] (g : α → α)
    (l : List α) (h : ∀ a ∈ l, ¬ p a) :
    l.map (fun a => if p a then g a else a) = l := by
  induction l with
  | nil => rfl
  | cons a as ih =>
    simp only [List.map_cons]
    rw [if_neg (h a (List.mem_cons_self a as)),
      ih (fun x hx => h x (List.mem_cons_of_mem a hx))]

/-- C9. An admin status-update to `approved`/`rejected` whose id matches no
stored row does not fail with NotFound: the handler answers 200 with
`changes = 0` and the state is unchanged. -/
theorem booking_status_update_missing_id (caller : AuthUser) (id : Nat)
    (body : StatusUpdateBody) (s : String) (now : Nat) (st : AppState)
    (hbs : body.status = some s) (hvalid : s = "approved" ∨ s = "rejected")
    (hnone : ∀ br ∈ st.booking_requests, br.id ≠ id) :
    (patchBookingStatusHandler caller id body now st).1 =
      StatusUpdateResponse.ok 200 { id := id, status := s, changes := 0 } ∧
    (patchBookingStatusHandler caller id body now st).2 = st := by
  have hfilter : st.booking_requests.filter (fun br => br.id = id) = [] := by
    rw [List.filter_eq_nil_iff]
    intro br hbr
    simp [hnone br hbr]
  rcases hvalid with hs2 | hs2
  · subst hs2
    constructor
    · simp [patchBookingStatusHandler, hbs, updateBookingRequestStatus, hfilter]
    · have hmap2 : st.booking_requests.map (fun br =>
          if br.id = id then
            ({ br with status := "approved", reviewed_by := some caller.id,
                       reviewed_at := some now, admin_notes := body.admin_notes,
                       updated_at := now } : BookingRequest)
          else br) = st.booking_requests :=
        map_if_id _ _ _ (fun a ha => hnone a ha)
      simp [patchBookingStatusHandler, hbs, updateBookingRequestStatus, hmap2]
  · subst hs2
    constructor
    · simp [patchBookingStatusHandler, hbs, updateBookingRequestStatus, hfilter]
    · have hmap2 : st.booking_requests.map (fun br =>
          if br.id = id then
            ({ br with status := "rejected", reviewed_by := some caller.id,
                       reviewed_at := some now, admin_notes := body.admin_notes,
                       updated_at := now } : BookingRequest)
          else br) = st.booking_requests :=
        map_if_id _ _ _ (fun a ha => hnone a ha)
      simp [patchBookingStatusHandler, hbs, updateBookingRequestStatus, hmap2]

/-- Witness for C9: updating the absent id 99 of the concrete store. -/
theorem booking_status_update_missing_id_witness :
    ({ status := some "rejected", admin_notes := none } : StatusUpdateBody).status =
      some "rejected" ∧
    ("rejected" = "approved" ∨ ("rejected" : String) = "rejected") ∧
    (∀ br ∈ baseState.booking_requests, br.id ≠ 99) ∧
    ((patchBookingStatusHandler (generateTokenPayload adminUser) 99
        { status := some "rejected", admin_notes := none } 9 baseState).1 =
      StatusUpdateResponse.ok 200 { id := 99, status := "rejected", changes := 0 } ∧
     (patchBookingStatusHandler (generateTokenPayload adminUser) 99
        { status := some "rejected", admin_notes := none } 9 baseState).2 = baseState) :=
  ⟨rfl, Or.inr rfl, by decide,
   booking_status_update_missing_id (generateTokenPayload adminUser) 99
     { status := some "rejected", admin_notes := none } "rejected" 9 baseState
     rfl (Or.inr rfl) (by decide)⟩

/-! ## C10: the status update overwrites admin_notes and nothing else -/

/-- C10. A valid admin status-update touches only the `booking_requests`
table; it preserves the list length and, row by row: a row with a different id
is unchanged, and the row with the target id gets exactly
`status`, `admin_notes` (the body's value — NULL when omitted, erasing any
previous notes), `reviewed_by`, `reviewed_at` and `updated_at` overwritten,
with every other column preserved. -/
theorem booking_status_update_frame (caller : AuthUser) (id : Nat)
    (body : StatusUpdateBody) (s : String) (now : Nat) (st : AppState)
    (hbs : body.status = some s) (hvalid : s = "approved" ∨ s = "rejected") :
    ((patchBookingStatusHandler caller id body now st).2.users = st.users ∧
     (patchBookingStatusHandler caller id body now st).2.classrooms = st.classrooms ∧
     (patchBookingStatusHandler caller id body now st).2.labs = st.labs ∧
     (patchBookingStatusHandler caller id body now st).2.buses = st.buses ∧
     (patchBookingStatusHandler caller id body now st).2.cafeteria_menu = st.cafeteria_menu ∧
     (patchBookingStatusHandler caller id body now st).2.cafeteria_info = st.cafeteria_info ∧
     (patchBookingStatusHandler caller id body now st).2.schedules = st.schedules) ∧
    (patchBookingStatusHandler caller id body now st).2.booking_requests.length =
      st.booking_requests.length ∧
    (∀ (i : Nat) (br br2 : BookingRequest), st.booking_requests[i]? = some br →
      (patchBookingStatusHandler caller id body now st).2.booking_requests[i]? = some br2 →
      (br.id ≠ id → br2 = br) ∧
      (br.id = id → br2.status = s ∧ br2.admin_notes = body.admin_notes ∧
        br2.reviewed_by = some caller.id ∧ br2.reviewed_at = some now ∧
        br2.updated_at = now ∧ br2.id = br.id ∧ br2.user_id = br.user_id ∧
        br2.resource_type = br.resource_type ∧ br2.resource_id = br.resource_id ∧
        br2.date = br.date ∧ br2.start_time = br.start_time ∧
        br2.end_time = br.end_time ∧ br2.program_name = br.program_name ∧
        br2.description = br.description ∧
        br2.participant_count = br.participant_count ∧
        br2.created_at = br.created_at)) := by
  rcases hvalid with hs2 | hs2
  · subst hs2
    refine ⟨⟨?_, ?_, ?_, ?_, ?_, ?_, ?_⟩, ?_, ?_⟩
    · simp [patchBookingStatusHandler, hbs, updateBookingRequestStatus]
    · simp [patchBookingStatusHandler, hbs, updateBookingRequestStatus]
    · simp [patchBookingStatusHandler, hbs, updateBookingRequestStatus]
    · simp [patchBookingStatusHandler, hbs, updateBookingRequestStatus]
    · simp [patchBookingStatusHandler, hbs, updateBookingRequestStatus]
    · simp [patchBookingStatusHandler, hbs, updateBookingRequestStatus]
    · simp [patchBookingStatusHandler, hbs, updateBookingRequestStatus]
    · simp [patchBookingStatusHandler, hbs, updateBookingRequestStatus]
    · intro i br br2 h1 h2
      simp [patchBookingStatusHandler, hbs, updateBookingRequestStatus,
        List.getElem?_map, h1] at h2
      rw [← h2]
      by_cases hid : br.id = id
      · refine ⟨fun hne => absurd hid hne, fun _ => ?_⟩
        rw [if_pos hid]
        exact ⟨rfl, rfl, rfl, rfl, rfl, rfl, rfl, rfl, rfl, rfl, rfl, rfl,
          rfl, rfl, rfl, rfl⟩
      · refine ⟨fun _ => if_neg hid, fun heq => absurd heq hid⟩
  · subst hs2
    refine ⟨⟨?_, ?_, ?_, ?_, ?_, ?_, ?_⟩, ?_, ?_⟩
    · simp [patchBookingStatusHandler, hbs, updateBookingRequestStatus]
    · simp [patchBookingStatusHandler, hbs, updateBookingRequestStatus]
    · simp [patchBookingStatusHandler, hbs, updateBookingRequestStatus]
    · simp [patchBookingStatusHandler, hbs, updateBookingRequestStatus]
    · simp [patchBookingStatusHandler, hbs, updateBookingRequestStatus]
    · simp [patchBookingStatusHandler, hbs, updateBookingRequestStatus]
    · simp [patchBookingStatusHandler, hbs, updateBookingRequestStatus]
    · simp [patchBookingStatusHandler, hbs, updateBookingRequestStatus]
    · intro i br br2 h1 h2
      simp [patchBookingStatusHandler, hbs, updateBookingRequestStatus,
        List.getElem?_map, h1] at h2
      rw [← h2]
      by_cases hid : br.id = id
      · refine ⟨fun hne => absurd hid hne, fun _ => ?_⟩
        rw [if_pos hid]
        exact ⟨rfl, rfl, rfl, rfl, rfl, rfl, rfl, rfl, rfl, rfl, rfl, rfl,
          rfl, rfl, rfl, rfl⟩
      · refine ⟨fun _ => if_neg hid, fun heq => absurd heq hid⟩

/-- Witness for C10: the frame property instantiated for the admin approving
row 1 of the concrete store with `admin_notes` omitted. -/
theorem booking_status_update_frame_witness :
    ({ status := some "approved", admin_notes := none } : StatusUpdateBody).status =
      some "approved" ∧
    (("approved" : String) = "approved" ∨ ("approved" : String) = "rejected") ∧
    ((patchBookingStatusHandler (generateTokenPayload adminUser) 1
        { status := some "approved", admin_notes := none } 8 baseState).2.users =
      baseState.users ∧
     (patchBookingStatusHandler (generateTokenPayload adminUser) 1
        { status := some "approved", admin_notes := none } 8 baseState).2.classrooms =
      baseState.classrooms ∧
     (patchBookingStatusHandler (generateTokenPayload adminUser) 1
        { status := some "approved", admin_notes := none } 8 baseState).2.labs =
      baseState.labs ∧
     (patchBookingStatusHandler (generateTokenPayload adminUser) 1
        { status := some "approved", admin_notes := none } 8 baseState).2.buses =
      baseState.buses ∧
     (patchBookingStatusHandler (generateTokenPayload adminUser) 1
        { status := some "approved", admin_notes := none } 8 baseState).2.cafeteria_menu =
      baseState.cafeteria_menu ∧
     (patchBookingStatusHandler (generateTokenPayload adminUser) 1
        { status := some "approved", admin_notes := none } 8 baseState).2.cafeteria_info =
      baseState.cafeteria_info ∧
     (patchBookingStatusHandler (generateTokenPayload adminUser) 1
        { status := some "approved", admin_notes := none } 8 baseState).2.schedules =
      baseState.schedules) ∧
    (patchBookingStatusHandler (generateTokenPayload adminUser) 1
        { status := some "approved", admin_notes := none } 8 baseState).2.booking_requests.length =
      baseState.booking_requests.length ∧
    (∀ (i : Nat) (br br2 : BookingRequest), baseState.booking_requests[i]? = some br →
      (patchBookingStatusHandler (generateTokenPayload adminUser) 1
        { status := some "approved", admin_notes := none } 8 baseState).2.booking_requests[i]? =
        some br2 →
      (br.id ≠ 1 → br2 = br) ∧
      (br.id = 1 → br2.status = "approved" ∧
        br2.admin_notes = ({ status := some "approved", admin_notes := none } :
          StatusUpdateBody).admin_notes ∧
        br2.reviewed_by = some (generateTokenPayload adminUser).id ∧
        br2.reviewed_at = some 8 ∧
        br2.updated_at = 8 ∧ br2.id = br.id ∧ br2.user_id = br.user_id ∧
        br2.resource_type = br.resource_type ∧ br2.resource_id = br.resource_id ∧
        br2.date = br.date ∧ br2.start_time = br.start_time ∧
        br2.end_time = br.end_time ∧ br2.program_name = br.program_name ∧
        br2.description = br.description ∧
        br2.participant_count = br.participant_count ∧
        br2.created_at = br.created_at)) :=
  ⟨rfl, Or.inl rfl,
   booking_status_update_frame (generateTokenPayload adminUser) 1
     { status := some "approved", admin_notes := none } "approved" 8 baseState
     rfl (Or.inl rfl)⟩

/-! ## C4: delete authorization -/

/-- C4. For a delete of an existing row (one the by-id SELECT finds): an admin
delete succeeds for any row in any status and removes every row with that id;
a non-admin deleting a row they do not own gets 403 and the state is
unchanged; a non-admin deleting their own non-pending row gets 400 and the
state is unchanged; a non-admin deleting their own pending row succeeds. The
first conjunct records that the fetched row is indeed in the store (so the
refusal cases leave it there). -/
theorem booking_delete_authorization (caller : AuthUser) (id : Nat)
    (st : AppState) (row : BookingRequestRow)
    (hrow : getBookingRequestById st.users st.classrooms st.labs
      st.booking_requests id = some row) :
    row.br ∈ st.booking_requests ∧
    (caller.role = "admin" →
      (deleteBookingRequestHandler caller id st).1 =
        DeleteBookingResult.ok 200 "Booking request deleted successfully"
          ((st.booking_requests.filter (fun br => br.id = id)).length) ∧
      ∀ br ∈ (deleteBookingRequestHandler caller id st).2.booking_requests,
        br.id ≠ id) ∧
    (caller.role ≠ "admin" → row.br.user_id ≠ caller.id →
      (deleteBookingRequestHandler caller id st).1 =
        DeleteBookingResult.accessDenied 403 "Access denied" ∧
      (deleteBookingRequestHandler caller id st).2 = st) ∧
    (caller.role ≠ "admin" → row.br.user_id = caller.id →
      row.br.status ≠ "pending" →
      (deleteBookingRequestHandler caller id st).1 =
        DeleteBookingResult.invalidState 400 "Can only delete pending requests" ∧
      (deleteBookingRequestHandler caller id st).2 = st) ∧
    (caller.role ≠ "admin" → row.br.user_id = caller.id →
      row.br.status = "pending" →
      (deleteBookingRequestHandler caller id st).1 =
        DeleteBookingResult.ok 200 "Booking request deleted successfully"
          ((st.booking_requests.filter (fun br => br.id = id)).length) ∧
      ∀ br ∈ (deleteBookingRequestHandler caller id st).2.booking_requests,
        br.id ≠ id) := by
  have hmem : row.br ∈ st.booking_requests := by
    unfold getBookingRequestById at hrow
    cases hfind : st.booking_requests.find? (fun br => br.id = id) with
    | none => rw [hfind] at hrow; simp at hrow
    | some br0 =>
      rw [hfind] at hrow
      simp only [Option.some_bind] at hrow
      rw [joinBooking_br_eq hrow]
      exact List.mem_of_find?_eq_some hfind
  have hdel : ∀ br ∈ st.booking_requests.filter (fun br => !(br.id = id)),
      br.id ≠ id := by
    intro br hbr
    have := (List.mem_filter.mp hbr).2
    simpa using this
  refine ⟨hmem, ?_, ?_, ?_, ?_⟩
  · intro hadm
    constructor
    · simp [deleteBookingRequestHandler, hrow, hadm, deleteBookingRequest]
    · intro br hbr
      refine hdel br ?_
      simpa [deleteBookingRequestHandler, hrow, hadm, deleteBookingRequest] using hbr
  · intro hadm hown
    constructor
    · simp [deleteBookingRequestHandler, hrow, hadm, hown]
    · simp [deleteBookingRequestHandler, hrow, hadm, hown]
  · intro hadm hown hstatus
    constructor
    · simp [deleteBookingRequestHandler, hrow, hadm, hown, hstatus]
    · simp [deleteBookingRequestHandler, hrow, hadm, hown, hstatus]
  · intro hadm hown hstatus
    constructor
    · simp [deleteBookingRequestHandler, hrow, hadm, hown, hstatus,
        deleteBookingRequest]
    · intro br hbr
      refine hdel br ?_
      simpa [deleteBookingRequestHandler, hrow, hadm, hown, hstatus,
        deleteBookingRequest] using hbr

/-- Witness for C4: Bob (non-admin) deleting Alice's approved request 2 gets
403 and the store keeps the row. -/
theorem booking_delete_authorization_witness :
    getBookingRequestById baseState.users baseState.classrooms baseState.labs
      baseState.booking_requests 2 = some approvedBookingRow ∧
    (approvedBookingRow.br ∈ baseState.booking_requests ∧
     ((generateTokenPayload bobUser).role = "admin" →
       (deleteBookingRequestHandler (generateTokenPayload bobUser) 2 baseState).1 =
         DeleteBookingResult.ok 200 "Booking request deleted successfully"
           ((baseState.booking_requests.filter (fun br => br.id = 2)).length) ∧
       ∀ br ∈ (deleteBookingRequestHandler (generateTokenPayload bobUser) 2
           baseState).2.booking_requests, br.id ≠ 2) ∧
     ((generateTokenPayload bobUser).role ≠ "admin" →
       approvedBookingRow.br.user_id ≠ (generateTokenPayload bobUser).id →
       (deleteBookingRequestHandler (generateTokenPayload bobUser) 2 baseState).1 =
         DeleteBookingResult.accessDenied 403 "Access denied" ∧
       (deleteBookingRequestHandler (generateTokenPayload bobUser) 2 baseState).2 =
         baseState) ∧
     ((generateTokenPayload bobUser).role ≠ "admin" →
       approvedBookingRow.br.user_id = (generateTokenPayload bobUser).id →
       approvedBookingRow.br.status ≠ "pending" →
       (deleteBookingRequestHandler (generateTokenPayload bobUser) 2 baseState).1 =
         DeleteBookingResult.invalidState 400 "Can only delete pending requests" ∧
       (deleteBookingRequestHandler (generateTokenPayload bobUser) 2 baseState).2 =
         baseState) ∧
     ((generateTokenPayload bobUser).role ≠ "admin" →
       approvedBookingRow.br.user_id = (generateTokenPayload bobUser).id →
       approvedBookingRow.br.status = "pending" →
       (deleteBookingRequestHandler (generateTokenPayload bobUser) 2 baseState).1 =
         DeleteBookingResult.ok 200 "Booking request deleted successfully"
           ((baseState.booking_requests.filter (fun br => br.id = 2)).length) ∧
       ∀ br ∈ (deleteBookingRequestHandler (generateTokenPayload bobUser) 2
           baseState).2.booking_requests, br.id ≠ 2)) :=
  ⟨by decide, booking_delete_authorization (generateTokenPayload bobUser) 2
    baseState approvedBookingRow (by decide)⟩

/-! ## C7: the bearer-token gate -/

/-- C7. Credential verification fails exactly when the token is missing
(absent or empty after extraction → 401 with the missing-token error),
or present but rejected by `jwt.verify` (invalid or expired → 403 with the
invalid-token error); in both failure cases the state is unchanged and the
wrapped handler is never invoked (the outcome does not depend on the handler);
when the token verifies, the wrapped handler runs with the decoded payload. -/
theorem authenticate_token_spec {ρ σ : Type} (verify : String → Option AuthUser)
    (authHeader : Option String) (handler : AuthUser → σ → ρ × σ) (st : σ) :
    (extractToken authHeader = none →
      authenticateToken verify authHeader handler st =
        (AuthOutcome.unauthenticated 401 "Access token required", st)) ∧
    (∀ t, extractToken authHeader = some t → verify t = none →
      authenticateToken verify authHeader handler st =
        (AuthOutcome.invalidToken 403 "Invalid or expired token", st)) ∧
    (∀ t u, extractToken authHeader = some t → verify t = some u →
      authenticateToken verify authHeader handler st =
        (AuthOutcome.proceed (handler u st).1, (handler u st).2)) ∧
    (∀ handler2 : AuthUser → σ → ρ × σ,
      (extractToken authHeader = none ∨
        ∃ t, extractToken authHeader = some t ∧ verify t = none) →
      authenticateToken verify authHeader handler st =
        authenticateToken verify authHeader handler2 st) := by
  refine ⟨?_, ?_, ?_, ?_⟩
  · intro h
    simp [authenticateToken, h]
  · intro t ht hv
    simp [authenticateToken, ht, hv]
  · intro t u ht hv
    simp [authenticateToken, ht, hv]
  · intro handler2 hfail
    rcases hfail with h | ⟨t, ht, hv⟩
    · simp [authenticateToken, h]
    · simp [authenticateToken, ht, hv]

/-- Witness for C7: a request with no Authorization header gets the 401, and a
request with a well-formed bearer token accepted by the verifier runs the
handler; both at concrete values. -/
theorem authenticate_token_spec_witness :
    (extractToken none = none ∧
     authenticateToken (fun _ => none) none (fun _ s => (0, s)) (0 : Nat) =
       (AuthOutcome.unauthenticated 401 "Access token required", 0)) ∧
    (extractToken (some "Bearer tok") = some "tok" ∧
     (fun t => if t = "tok" then
         some (generateTokenPayload bobUser)
       else none) "tok" = some (generateTokenPayload bobUser) ∧
     authenticateToken
       (fun t => if t = "tok" then some (generateTokenPayload bobUser) else none)
       (some "Bearer tok") (fun u s => (u.id, s)) (0 : Nat) =
       (AuthOutcome.proceed ((fun (u : AuthUser) (s : Nat) => (u.id, s))
          (generateTokenPayload bobUser) 0).1,
        ((fun (u : AuthUser) (s : Nat) => (u.id, s))
          (generateTokenPayload bobUser) 0).2)) :=
  ⟨⟨rfl, (authenticate_token_spec (fun _ => none) none (fun _ s => (0, s)) 0).1 rfl⟩,
   ⟨by decide, by decide,
    (authenticate_token_spec
      (fun t => if t = "tok" then some (generateTokenPayload bobUser) else none)
      (some "Bearer tok") (fun u s => (u.id, s)) 0).2.2.1 "tok"
      (generateTokenPayload bobUser) (by decide) (by decide)⟩⟩

/-! ## C6: the schedule read path -/

/-- C6. `getSchedulesByResource` returns exactly the stored ScheduleEntry rows
matching the resource pair (and the day when a truthy day filter is given) —
as a permutation of the filtered table and element-wise — sorted by
`day_of_week` then `start_time`; and, being a pure function of the store, two
fetches with the same arguments against the same store return identical
ordered results. -/
theorem schedules_for_resource_spec (schedules : List ScheduleEntry)
    (ty : String) (rid : Nat) (day : Option String) :
    (getSchedulesByResource schedules ty rid day).Perm
      (schedules.filter (scheduleMatch ty rid day)) ∧
    (∀ e, e ∈ getSchedulesByResource schedules ty rid day ↔
      e ∈ schedules ∧ scheduleMatch ty rid day e = true) ∧
    List.Sorted scheduleRel (getSchedulesByResource schedules ty rid day) ∧
    getSchedulesByResource schedules ty rid day =
      getSchedulesByResource schedules ty rid day := by
  refine ⟨List.perm_insertionSort _ _, ?_, ?_, rfl⟩
  · intro e
    rw [getSchedulesByResource, List.mem_insertionSort, List.mem_filter]
  · exact List.sorted_insertionSort _ _

/-- A concrete schedule table: three classroom-1 rows (out of day/time order)
and one lab row. -/
def sampleSchedules : List ScheduleEntry :=
  [{ id := 1, resource_type := "classroom", resource_id := 1,
     day_of_week := "Tuesday", start_time := "09:00", end_time := "10:00",
     subject := "Math", instructor := none, course_code := none,
     created_at := 0, updated_at := 0 },
   { id := 2, resource_type := "classroom", resource_id := 1,
     day_of_week := "Monday", start_time := "11:00", end_time := "12:00",
     subject := "Physics", instructor := none, course_code := none,
     created_at := 0, updated_at := 0 },
   { id := 3, resource_type := "lab", resource_id := 1,
     day_of_week := "Monday", start_time := "08:00", end_time := "09:00",
     subject := "Chem", instructor := none, course_code := none,
     created_at := 0, updated_at := 0 },
   { id := 4, resource_type := "classroom", resource_id := 1,
     day_of_week := "Monday", start_time := "08:00", end_time := "09:00",
     subject := "CS", instructor := none, course_code := none,
     created_at := 0, updated_at := 0 }]

/-- Witness for C6 at the concrete schedule table. -/
theorem schedules_for_resource_spec_witness :
    ((getSchedulesByResource sampleSchedules "classroom" 1 none).Perm
      (sampleSchedules.filter (scheduleMatch "classroom" 1 none))) ∧
    (∀ e, e ∈ getSchedulesByResource sampleSchedules "classroom" 1 none ↔
      e ∈ sampleSchedules ∧ scheduleMatch "classroom" 1 none e = true) ∧
    List.Sorted scheduleRel
      (getSchedulesByResource sampleSchedules "classroom" 1 none) ∧
    getSchedulesByResource sampleSchedules "classroom" 1 none =
      getSchedulesByResource sampleSchedules "classroom" 1 none :=
  schedules_for_resource_spec sampleSchedules "classroom" 1 none

/-! ## C8: roles are fixed at creation; the only admin is the seeded one -/

/-- Every route of the API either leaves the `users` table exactly as it was,
or (signup, on its success path) appends a single user whose role is
`student`. -/
theorem step_users_eq_or_append (hash : String → String) (a : Action)
    (now : Nat) (st : AppState) :
    (step hash a now st).users = st.users ∨
      ∃ u : User, u.role = "student" ∧
        (step hash a now st).users = st.users ++ [u] := by
  cases a with
  | signup body =>
    by_cases h1 : (truthyStr body.student_id && truthyStr body.name &&
        truthyStr body.password) = true
    · by_cases h2 : (body.password.getD "").length < 6
      · left
        simp [step, postAuthSignup, h1, h2]
      · cases hfind : findUserByStudentId st.users (body.student_id.getD "") with
        | some u0 =>
          left
          simp [step, postAuthSignup, h1, h2, hfind]
        | none =>
          right
          refine ⟨{ id := st.usersNext, student_id := body.student_id.getD "",
                    name := body.name.getD "",
                    password := hash (body.password.getD ""),
                    role := "student", created_at := now,
                    updated_at := now }, rfl, ?_⟩
          simp [step, postAuthSignup, h1, h2, hfind, createUser]
    · left
      simp [step, postAuthSignup, h1]
  | signin a b => left; rfl
  | signout c => left; rfl
  | me c => left; rfl
  | getUsers c => left; rfl
  | getClassrooms a b => left; rfl
  | getClassroomById i => left; rfl
  | postClassroom c => left; rfl
  | putClassroom i c => left; rfl
  | deleteClassroom i => left; rfl
  | getLabs a b => left; rfl
  | patchLabStatus i s => left; rfl
  | getBuses a => left; rfl
  | postBus b => left; rfl
  | putBus i b => left; rfl
  | deleteBus i => left; rfl
  | getMenu a b c => left; rfl
  | getMenuItemById i => left; rfl
  | postMenuItem m => left; rfl
  | putMenuItem i m => left; rfl
  | deleteMenuItem i => left; rfl
  | getCafeteriaInfo => left; rfl
  | putCafeteriaInfo i => left; rfl
  | getSchedules a b c => left; rfl
  | postSchedule body =>
    left
    by_cases hc : (truthyStr body.resource_type && truthyNat body.resource_id &&
        truthyStr body.day_of_week && truthyStr body.start_time &&
        truthyStr body.end_time && truthyStr body.subject) = true
    · simp [step, postSchedulesHandler, hc, createSchedule]
    · simp [step, postSchedulesHandler, hc]
  | putSchedule i u => left; rfl
  | deleteSchedule i => left; rfl
  | postBooking caller body =>
    left
    by_cases h : requiredBookingFields body = true
    · simp [step, postBookingRequests, h, createBookingRequest]
    · simp [step, postBookingRequests, h]
  | getBookings c q => left; rfl
  | getBookingById c i => left; rfl
  | patchBookingStatus caller i body =>
    left
    by_cases h1 : body.status = some "approved"
    · simp [step, patchBookingStatusHandler, h1, updateBookingRequestStatus]
    · by_cases h2 : body.status = some "rejected"
      · simp [step, patchBookingStatusHandler, h1, h2, updateBookingRequestStatus]
      · simp [step, patchBookingStatusHandler, h1, h2]
  | deleteBooking caller i =>
    left
    cases hg : getBookingRequestById st.users st.classrooms st.labs
        st.booking_requests i with
    | none => simp [step, deleteBookingRequestHandler, hg]
    | some row =>
      by_cases h1 : (!(caller.role = "admin") && !(row.br.user_id = caller.id)) = true
      · simp [step, deleteBookingRequestHandler, hg, h1]
      · by_cases h2 : (!(caller.role = "admin") && !(row.br.status = "pending")) = true
        · simp [step, deleteBookingRequestHandler, hg, h1, h2]
        · simp [step, deleteBookingRequestHandler, hg, h1, h2, deleteBookingRequest]
  | health => left; rfl

/-- C8. Signup only ever adds users with role `student` and ignores any role
in the request body; every exposed route either preserves the `users` table or
appends one student; the bootstrap seeding on a fresh database creates only
the `admin` account; and along any trace of API requests from a state whose
only admin is the seeded `admin` account (in particular the bootstrapped
state), every user with role `admin` is still the seeded account. -/
theorem signup_role_and_admin_seed :
    (∀ (hash : String → String) (body : SignupBody) (now : Nat) (st : AppState)
      (u : User), u ∈ (postAuthSignup hash body now st).2.users →
        u ∈ st.users ∨ u.role = "student") ∧
    (∀ (hash : String → String) (body : SignupBody) (r : Option String)
      (now : Nat) (st : AppState),
      postAuthSignup hash { body with role := r } now st =
        postAuthSignup hash body now st) ∧
    (∀ (hash : String → String) (a : Action) (now : Nat) (st : AppState),
      (step hash a now st).users = st.users ∨
        ∃ u : User, u.role = "student" ∧
          (step hash a now st).users = st.users ++ [u]) ∧
    (∀ (hash : String → String) (now : Nat),
      adminOnlySeed (insertSampleDataUsers hash now [] 1).1) ∧
    (∀ (hash : String → String) (acts : List (Action × Nat)) (st0 : AppState),
      adminOnlySeed st0.users → adminOnlySeed (runActions hash acts st0).users) := by
  refine ⟨?_, ?_, step_users_eq_or_append, ?_, ?_⟩
  · intro hash body now st u hu
    have hu2 : u ∈ (step hash (Action.signup body) now st).users := hu
    rcases step_users_eq_or_append hash (Action.signup body) now st with h | ⟨v, hv, happ⟩
    · left
      rw [h] at hu2
      exact hu2
    · rw [happ] at hu2
      rcases List.mem_append.mp hu2 with h | h
      · exact Or.inl h
      · right
        simp at h
        subst h
        exact hv
  · intro hash body r now st
    rfl
  · intro hash now u hu hrole
    simp [insertSampleDataUsers, findUserByStudentId, createUser] at hu
    subst hu
    rfl
  · intro hash acts
    induction acts with
    | nil => intro st0 h0; exact h0
    | cons p ps ih =>
      intro st0 h0
      have hstep : adminOnlySeed (step hash p.1 p.2 st0).users := by
        rcases step_users_eq_or_append hash p.1 p.2 st0 with h | ⟨v, hv, happ⟩
        · rw [h]; exact h0
        · rw [happ]
          intro w hw hwrole
          rcases List.mem_append.mp hw with h | h
          · exact h0 w h hwrole
          · simp at h
            subst h
            rw [hv] at hwrole
            exact absurd hwrole (by decide)
      exact ih (step hash p.1 p.2 st0) hstep

/-- The state right after bootstrap on a fresh database, with the identity
function standing in for bcrypt. -/
def bootState : AppState :=
  { emptyState with users := (insertSampleDataUsers (fun p => p) 0 [] 1).1,
                    usersNext := (insertSampleDataUsers (fun p => p) 0 [] 1).2 }

/-- Witness for C8: after bootstrap and one signup that tries to smuggle
`role: admin` in the body, the only admin is still the seeded account. -/
theorem signup_role_and_admin_seed_witness :
    adminOnlySeed (runActions (fun p => p)
      [(Action.signup { student_id := some "S1", name := some "N",
                        password := some "abcdef", role := some "admin" }, 1)]
      bootState).users :=
  signup_role_and_admin_seed.2.2.2.2 (fun p => p)
    [(Action.signup { student_id := some "S1", name := some "N",
                      password := some "abcdef", role := some "admin" }, 1)]
    bootState (signup_role_and_admin_seed.2.2.2.1 (fun p => p) 0)

end CampusInfo
